import Mathlib

/-!
Shallow embedding of `aiohttp/pytest_plugin.py`.

The file under verification is a pytest plugin: a coroutine-aware test
execution hook, a loop passthrough context, and three resource-factory
fixtures (`test_server`, `raw_test_server`, `test_client`).  Each fixture
keeps a Python list (`servers` / `clients`) as its registry, appends a started
resource on each successful factory call, and at teardown runs

    while registry: yield from registry.pop().close()

on the fixture's loop.

Modelling conventions:
  * An event loop is identified by a numeric id (`Loop := Nat`); the Python
    `is` comparison between loop objects is equality of ids.
  * Asynchronous effects that can raise (`server.start_server(...)`,
    `client.start_server()`, `resource.close()`) are modelled by boolean
    oracles (`startOk`, `closeOk`) saying whether the awaited operation
    succeeds; a raised exception becomes an `Err` value that propagates.
  * Each factory coroutine `go` is a pure function from its arguments and the
    current registry to a result record carrying: the returned value or the
    propagated exception, the registry after the call, and a log of the side
    effects the claims talk about (which resources had `start_server` awaited,
    which calls were made to a user-supplied callable).
  * The teardown loop is a pure function from the registry (in creation
    order) to a `DrainResult`: the resources whose `close` completed in the
    order they were awaited, the resource whose `close` raised (if any; the
    exception propagates out of `run_until_complete`, so it is the recorded
    failure), and the contents of the registry at the moment the loop stopped.
-/

set_option autoImplicit false

/-- An event loop identity.  The plugin compares loops with Python `is`,
which we model as equality of numeric ids. -/
abbrev Loop := Nat

/-- An `aiohttp.web.Application`; the plugin only ever reads its `loop`
attribute (the loop the application is attached to). -/
structure App where
  loop : Loop
deriving DecidableEq

/-- A `TestServer` as constructed by `test_server.go`: `TestServer(app)` keeps
the application, and `server.app.loop` is the loop it is attached to. -/
structure TestServer where
  app : App
deriving DecidableEq

/-- A raw web handler.  The plugin treats the handler as opaque and never
reads any attribute of it; we record an identity and the loop the handler is
(notionally) bound to purely so that binding-mismatch properties can be
stated.  No definition below ever inspects `boundLoop`. -/
structure Handler where
  id : Nat
  boundLoop : Loop
deriving DecidableEq

/-- A `RawTestServer` as constructed by `raw_test_server.go`:
`RawTestServer(handler, loop=loop)`.  The field `_loop` is the private loop
attribute that `test_client.go` later inspects. -/
structure RawTestServer where
  handler : Handler
  _loop : Loop
deriving DecidableEq

/-- What a `TestClient` wraps: one of the three recognised pre-built targets,
or (form 4) the value returned by a user-supplied server-constructor
callable, which the plugin does not inspect further (modelled as a `Nat`). -/
inductive Wrapped where
  | app (a : App)
  | server (s : TestServer)
  | rawServer (r : RawTestServer)
  | other (x : Nat)
deriving DecidableEq

/-- A `TestClient`: the wrapped target plus the keyword arguments forwarded
to `TestClient(...)` (modelled as an association list of named `Nat`
values).  In form 4 the source constructs `TestClient(__param)` with no
keyword arguments. -/
structure TestClient where
  wrapped : Wrapped
  kwargs : List (String × Nat)
deriving DecidableEq

/-- An exception escaping a factory coroutine: a failed `assert` with its
message, or an error raised while awaiting `start_server`. -/
inductive Err where
  | assertionError (msg : String)
  | startError
deriving DecidableEq

/-- Equality of `Except` values is decidable when it is on both sides. -/
instance {ε α : Type} [DecidableEq ε] [DecidableEq α] :
    DecidableEq (Except ε α) := fun a b =>
  match a, b with
  | .ok x, .ok y =>
    if h : x = y then .isTrue (by rw [h]) else .isFalse (by simp [h])
  | .error x, .error y =>
    if h : x = y then .isTrue (by rw [h]) else .isFalse (by simp [h])
  | .ok _, .error _ => .isFalse (by simp)
  | .error _, .ok _ => .isFalse (by simp)

/-- Result of one `test_server.go` / `raw_test_server.go` call, generic in
the server type: the returned server or propagated exception, the registry
after the call, and the list of servers on which `start_server` was
awaited during the call. -/
structure GoResult (σ : Type) where
  result : Except Err σ
  servers : List σ
  startAttempts : List σ
deriving DecidableEq

/-- The coroutine `go(app, **kwargs)` of the `test_server` fixture:
`assert app.loop is loop`, then `server = TestServer(app)`,
`yield from server.start_server(**kwargs)`, `servers.append(server)`,
`return server`.  `startOk` tells whether the awaited `start_server`
succeeds. -/
def test_server.go (loop : Loop) (startOk : Bool) (app : App)
    (servers : List TestServer) : GoResult TestServer :=
  if app.loop = loop then
    let server : TestServer := ⟨app⟩
    if startOk then
      ⟨.ok server, servers ++ [server], [server]⟩
    else
      ⟨.error .startError, servers, [server]⟩
  else
    ⟨.error (.assertionError "Application is attached to other event loop"),
      servers, []⟩

/-- The coroutine `go(handler, **kwargs)` of the `raw_test_server` fixture:
`server = RawTestServer(handler, loop=loop)`, then
`yield from server.start_server(**kwargs)`, `servers.append(server)`,
`return server`.  There is no assertion of any kind: the handler is passed
through unconditionally and the new server is bound to the fixture's
`loop`. -/
def raw_test_server.go (loop : Loop) (startOk : Bool) (handler : Handler)
    (servers : List RawTestServer) : GoResult RawTestServer :=
  let server : RawTestServer := ⟨handler, loop⟩
  if startOk then
    ⟨.ok server, servers ++ [server], [server]⟩
  else
    ⟨.error .startError, servers, [server]⟩

/-- The first positional argument of `test_client.go`: one of the three
recognised instance types, or (the `else` branch) anything else, treated as a
server-constructor callable taking the loop, the positional arguments and the
keyword arguments. -/
inductive ClientParam where
  | app (a : App)
  | server (s : TestServer)
  | rawServer (r : RawTestServer)
  | callable (f : Loop → List Nat → List (String × Nat) → Nat)

/-- Result of one `test_client.go` call: the returned client or propagated
exception, the registry after the call, the log of invocations of the
user-supplied callable (loop and forwarded positional/keyword arguments, in
order), and the clients on which `start_server` was awaited. -/
structure GoClientResult where
  result : Except Err TestClient
  clients : List TestClient
  paramCalls : List (Loop × List Nat × List (String × Nat))
  startAttempts : List TestClient
deriving DecidableEq

/-- The common tail of every `test_client.go` branch:
`yield from client.start_server()`, `clients.append(client)`,
`return client`, with `startOk` telling whether the awaited
`start_server` succeeds.  `paramCalls` is the callable-invocation log
accumulated before this point. -/
def startClient (startOk : Bool) (client : TestClient)
    (clients : List TestClient)
    (paramCalls : List (Loop × List Nat × List (String × Nat))) :
    GoClientResult :=
  if startOk then
    ⟨.ok client, clients ++ [client], paramCalls, [client]⟩
  else
    ⟨.error .startError, clients, paramCalls, [client]⟩

/-- The coroutine `go(__param, *args, **kwargs)` of the `test_client`
fixture.  Forms 1-3 (`Application`, `TestServer`, `RawTestServer`) assert
`not args` and the loop-binding check, then build `TestClient(__param,
**kwargs)`; the `else` branch (form 4) computes
`__param = __param(loop, *args, **kwargs)` and builds `TestClient(__param)`.
All branches then run `startClient`. -/
def test_client.go (loop : Loop) (startOk : Bool) (param : ClientParam)
    (args : List Nat) (kwargs : List (String × Nat))
    (clients : List TestClient) : GoClientResult :=
  match param with
  | .app a =>
    if args = [] then
      if a.loop = loop then
        startClient startOk ⟨.app a, kwargs⟩ clients []
      else
        ⟨.error (.assertionError "Application is attached to other event loop"),
          clients, [], []⟩
    else ⟨.error (.assertionError "args should be empty"), clients, [], []⟩
  | .server s =>
    if args = [] then
      if s.app.loop = loop then
        startClient startOk ⟨.server s, kwargs⟩ clients []
      else
        ⟨.error (.assertionError "TestServer is attached to other event loop"),
          clients, [], []⟩
    else ⟨.error (.assertionError "args should be empty"), clients, [], []⟩
  | .rawServer r =>
    if args = [] then
      if r._loop = loop then
        startClient startOk ⟨.rawServer r, kwargs⟩ clients []
      else
        ⟨.error (.assertionError "TestServer is attached to other event loop"),
          clients, [], []⟩
    else ⟨.error (.assertionError "args should be empty"), clients, [], []⟩
  | .callable f =>
    startClient startOk ⟨.other (f loop args kwargs), []⟩ clients
      [(loop, args, kwargs)]

/-- Outcome of a teardown drain `while registry: yield from
registry.pop().close()`: `closed` are the resources whose `close` completed,
in the order the closes were awaited; `failed` is the resource whose `close`
raised (that exception propagates out of `run_until_complete`, aborting the
loop), if any; `remaining` is the registry, in creation order, at the moment
the loop stopped. -/
structure DrainResult (α : Type) where
  closed : List α
  failed : Option α
  remaining : List α
deriving DecidableEq

/-- One step of the drain per element of the pop-order list (the registry
reversed): `registry.pop()` removes the most recently created resource
first, so the head of the reversed registry is popped and closed first.
The pop happens before the close is awaited, so on a close failure the
failed element is already gone from the registry. -/
def drainFrom {α : Type} (closeOk : α → Bool) : List α → DrainResult α
  | [] => ⟨[], none, []⟩
  | x :: xs =>
    if closeOk x then
      let r := drainFrom closeOk xs
      ⟨x :: r.closed, r.failed, r.remaining⟩
    else
      ⟨[], some x, xs.reverse⟩

/-- The `finalize` coroutine of the `test_server` fixture, run by
`loop.run_until_complete` at teardown: `while servers: yield from
servers.pop().close()`.  The registry is given in creation order;
`closeOk` tells, per server, whether its awaited `close` succeeds. -/
def test_server.finalize (closeOk : TestServer → Bool)
    (servers : List TestServer) : DrainResult TestServer :=
  drainFrom closeOk servers.reverse

/-- The `finalize` coroutine of the `raw_test_server` fixture (same code as
`test_server.finalize`, over its own registry). -/
def raw_test_server.finalize (closeOk : RawTestServer → Bool)
    (servers : List RawTestServer) : DrainResult RawTestServer :=
  drainFrom closeOk servers.reverse

/-- The `finalize` coroutine of the `test_client` fixture: `while clients:
yield from clients.pop().close()`. -/
def test_client.finalize (closeOk : TestClient → Bool)
    (clients : List TestClient) : DrainResult TestClient :=
  drainFrom closeOk clients.reverse

/-- A sequence of `test_server` factory calls within one test, threading the
fixture's registry through; each call is described by its `startOk` oracle
and its application.  The first raised exception propagates (failing the
test), so later calls do not run. -/
def test_server.run (loop : Loop) :
    List (Bool × App) → List TestServer → Except Err (List TestServer)
  | [], servers => .ok servers
  | c :: calls, servers =>
    let r := test_server.go loop c.1 c.2 servers
    match r.result with
    | .ok _ => test_server.run loop calls r.servers
    | .error e => .error e

/-- One `test_client` factory call description: its `startOk` oracle, the
target, and the positional and keyword arguments. -/
structure ClientCall where
  startOk : Bool
  param : ClientParam
  args : List Nat
  kwargs : List (String × Nat)

/-- A sequence of `test_client` factory calls within one test, threading the
fixture's registry through; the first raised exception propagates. -/
def test_client.run (loop : Loop) :
    List ClientCall → List TestClient → Except Err (List TestClient)
  | [], clients => .ok clients
  | c :: calls, clients =>
    let r := test_client.go loop c.startOk c.param c.args c.kwargs clients
    match r.result with
    | .ok _ => test_client.run loop calls r.clients
    | .error e => .error e

/-- What `_passthrough_loop_context` did: the loop it yielded to the `with`
body, whether it created that loop itself (via `setup_test_loop`), and
whether it ran `teardown_test_loop` on it after the body finished
normally. -/
structure LoopContextResult where
  yielded : Loop
  createdNew : Bool
  tornDown : Bool
deriving DecidableEq

/-- Modelled from the spec: `setup_test_loop` lives in `test_utils`, which is
not part of this source tree; per the spec it creates a fresh scheduler for
this single test.  We model creation by an explicitly supplied fresh loop
id. -/
def setup_test_loop (fresh : Loop) : Loop := fresh

/-- The `_passthrough_loop_context(loop)` context manager: a supplied loop
object (`some l`; loop objects are truthy) is yielded as is and no teardown
is run on it; with `loop` absent or `None` a fresh loop is created with
`setup_test_loop`, yielded, and `teardown_test_loop` is run on it after the
body. -/
def _passthrough_loop_context (loop : Option Loop) (fresh : Loop) :
    LoopContextResult :=
  match loop with
  | some l => ⟨l, false, false⟩
  | none => ⟨setup_test_loop fresh, true, true⟩

/-- A pytest function item as seen by `pytest_pyfunc_call`: whether
`pyfuncitem.function` is a coroutine function, the resolved fixture values
`pyfuncitem.funcargs` (an association list; the `loop` fixture, when
requested, appears under the key `"loop"`), the declared argument names
`pyfuncitem._fixtureinfo.argnames`, and the test body itself, which receives
the loop it is driven on and the selected `testargs` and either completes or
raises. -/
structure PyFuncItem where
  isCoroutine : Bool
  funcargs : List (String × Loop)
  argnames : List String
  run : Loop → List (String × Loop) → Except String Unit

/-- Outcome of the `pytest_pyfunc_call` hook: it returned `None` (did not
handle the item), it drove the coroutine to completion on `loopUsed` and
returned `True`, or the coroutine raised and that exception propagated out of
`run_until_complete` as the test's failure. -/
inductive HookResult where
  | notHandled
  | handled (loopUsed : Loop)
  | raised (loopUsed : Loop) (e : String)
deriving DecidableEq

/-- The dict comprehension `{arg: pyfuncitem.funcargs[arg] for arg in
pyfuncitem._fixtureinfo.argnames}`: the subset of resolved fixture values the
function actually declares. -/
def testargsFor (item : PyFuncItem) : List (String × Loop) :=
  item.argnames.filterMap fun a => (item.funcargs.lookup a).map fun v => (a, v)

/-- The `pytest_pyfunc_call(pyfuncitem)` hook: for a coroutine function it
fetches `funcargs.get('loop', None)`, enters `_passthrough_loop_context`,
builds `testargs`, schedules the call as a task and runs the loop until the
task completes, then returns `True`; for anything else it falls through and
returns `None`. -/
def pytest_pyfunc_call (item : PyFuncItem) (fresh : Loop) : HookResult :=
  if item.isCoroutine then
    let ctx := _passthrough_loop_context (item.funcargs.lookup "loop") fresh
    match item.run ctx.yielded (testargsFor item) with
    | .ok _ => .handled ctx.yielded
    | .error e => .raised ctx.yielded e
  else
    .notHandled

/-! Helper lemmas about the drain loop. -/

theorem drainFrom_all_ok {α : Type} (closeOk : α → Bool) (m : List α)
    (h : ∀ x ∈ m, closeOk x = true) : drainFrom closeOk m = ⟨m, none, []⟩ := by
  induction m with
  | nil => rfl
  | cons x xs ih =>
    have hx : closeOk x = true := h x (by simp)
    have ihx := ih fun y hy => h y (List.mem_cons_of_mem _ hy)
    simp [drainFrom, hx, ihx]

theorem drainFrom_fail {α : Type} (closeOk : α → Bool) (m1 : List α) (x : α)
    (m2 : List α) (h1 : ∀ y ∈ m1, closeOk y = true) (hx : closeOk x = false) :
    drainFrom closeOk (m1 ++ x :: m2) = ⟨m1, some x, m2.reverse⟩ := by
  induction m1 with
  | nil => simp [drainFrom, hx]
  | cons y ys ih =>
    have hy : closeOk y = true := h1 y (by simp)
    have ihy := ih fun z hz => h1 z (List.mem_cons_of_mem _ hz)
    simp [drainFrom, hy, ihy]

theorem drainFrom_failed_none {α : Type} (closeOk : α → Bool) (m : List α)
    (h : (drainFrom closeOk m).failed = none) :
    (drainFrom closeOk m).remaining = [] := by
  induction m with
  | nil => rfl
  | cons x xs ih =>
    by_cases hx : closeOk x = true
    · simp [drainFrom, hx] at h ⊢
      exact ih h
    · simp [drainFrom, hx] at h

theorem drainFrom_decomp {α : Type} (closeOk : α → Bool) (m : List α) :
    m = (drainFrom closeOk m).closed ++ (drainFrom closeOk m).failed.toList ++
        (drainFrom closeOk m).remaining.reverse := by
  induction m with
  | nil => rfl
  | cons x xs ih =>
    by_cases hx : closeOk x = true
    · simpa [drainFrom, hx] using ih
    · simp [drainFrom, hx]

theorem drain_rev_fail {α : Type} (closeOk : α → Bool) (pre : List α) (x : α)
    (post : List α) (hpost : ∀ y ∈ post, closeOk y = true)
    (hx : closeOk x = false) :
    drainFrom closeOk (pre ++ x :: post).reverse = ⟨post.reverse, some x, pre⟩ := by
  have hrev : (pre ++ x :: post).reverse = post.reverse ++ x :: pre.reverse := by
    simp [List.reverse_append, List.append_assoc]
  rw [hrev, drainFrom_fail closeOk post.reverse x pre.reverse
    (fun y hy => hpost y (List.mem_reverse.mp hy)) hx, List.reverse_reverse]

theorem drain_rev_decomp {α : Type} (closeOk : α → Bool) (l : List α) :
    l = (drainFrom closeOk l.reverse).remaining ++
        ((drainFrom closeOk l.reverse).closed ++
          (drainFrom closeOk l.reverse).failed.toList).reverse := by
  have h2 := congrArg List.reverse (drainFrom_decomp closeOk l.reverse)
  simpa [List.reverse_append, List.append_assoc] using h2

theorem test_server.go_ok_servers (loop : Loop) (startOk : Bool) (app : App)
    (servers : List TestServer) (s : TestServer)
    (h : (test_server.go loop startOk app servers).result = .ok s) :
    (test_server.go loop startOk app servers).servers = servers ++ [s] := by
  by_cases ha : app.loop = loop
  · by_cases hs : startOk = true
    · simp [test_server.go, ha, hs] at h ⊢
      rw [h]
    · simp [test_server.go, ha, hs] at h
  · simp [test_server.go, ha] at h

theorem startClient_ok_clients (startOk : Bool) (client : TestClient)
    (clients : List TestClient)
    (paramCalls : List (Loop × List Nat × List (String × Nat)))
    (c : TestClient)
    (h : (startClient startOk client clients paramCalls).result = .ok c) :
    (startClient startOk client clients paramCalls).clients = clients ++ [c] := by
  by_cases hs : startOk = true
  · simp [startClient, hs] at h ⊢
    rw [h]
  · simp [startClient, hs] at h

theorem test_client.go_ok_clients (loop : Loop) (startOk : Bool)
    (param : ClientParam) (args : List Nat) (kwargs : List (String × Nat))
    (clients : List TestClient) (c : TestClient)
    (h : (test_client.go loop startOk param args kwargs clients).result = .ok c) :
    (test_client.go loop startOk param args kwargs clients).clients =
      clients ++ [c] := by
  cases param with
  | app a =>
    by_cases hargs : args = []
    · by_cases hl : a.loop = loop
      · rw [test_client.go] at h ⊢
        simp only [hargs, if_true, hl, if_pos rfl] at h ⊢
        exact startClient_ok_clients _ _ _ _ _ h
      · simp [test_client.go, hargs, hl] at h
    · simp [test_client.go, hargs] at h
  | server s =>
    by_cases hargs : args = []
    · by_cases hl : s.app.loop = loop
      · rw [test_client.go] at h ⊢
        simp only [hargs, if_true, hl, if_pos rfl] at h ⊢
        exact startClient_ok_clients _ _ _ _ _ h
      · simp [test_client.go, hargs, hl] at h
    · simp [test_client.go, hargs] at h
  | rawServer r =>
    by_cases hargs : args = []
    · by_cases hl : r._loop = loop
      · rw [test_client.go] at h ⊢
        simp only [hargs, if_true, hl, if_pos rfl] at h ⊢
        exact startClient_ok_clients _ _ _ _ _ h
      · simp [test_client.go, hargs, hl] at h
    · simp [test_client.go, hargs] at h
  | callable f =>
    rw [test_client.go] at h ⊢
    exact startClient_ok_clients _ _ _ _ _ h

theorem test_server.run_length_servers (loop : Loop) (calls : List (Bool × App))
    (init regs : List TestServer)
    (h : test_server.run loop calls init = .ok regs) :
    regs.length = init.length + calls.length := by
  induction calls generalizing init with
  | nil =>
    simp [test_server.run] at h
    simp [h]
  | cons c calls ih =>
    rw [test_server.run] at h
    split at h
    · rename_i s hs
      have hlen := ih _ h
      rw [test_server.go_ok_servers loop c.1 c.2 init s hs] at hlen
      simp at hlen
      simp only [List.length_cons]
      omega
    · exact absurd h (by simp)

theorem test_client.run_length_clients (loop : Loop) (calls : List ClientCall)
    (init regs : List TestClient)
    (h : test_client.run loop calls init = .ok regs) :
    regs.length = init.length + calls.length := by
  induction calls generalizing init with
  | nil =>
    simp [test_client.run] at h
    simp [h]
  | cons c calls ih =>
    rw [test_client.run] at h
    split at h
    · rename_i cl hc
      have hlen := ih _ h
      rw [test_client.go_ok_clients loop c.startOk c.param c.args c.kwargs init
        cl hc] at hlen
      simp at hlen
      simp only [List.length_cons]
      omega
    · exact absurd h (by simp)

/-! Claim theorems. -/

/-- C3: for every sequence of successfully created resources A, B, C, ...
(the registry in creation order), the teardown drain of each of the three
fixtures closes them in exact reverse creation order, for the `test_server`,
`raw_test_server` and `test_client` registries. -/
theorem teardown_closes_in_reverse_creation_order
    (cS : TestServer → Bool) (cR : RawTestServer → Bool)
    (cC : TestClient → Bool) (ls : List TestServer) (lr : List RawTestServer)
    (lc : List TestClient) (hS : ∀ x ∈ ls, cS x = true)
    (hR : ∀ x ∈ lr, cR x = true) (hC : ∀ x ∈ lc, cC x = true) :
    (test_server.finalize cS ls).closed = ls.reverse ∧
    (raw_test_server.finalize cR lr).closed = lr.reverse ∧
    (test_client.finalize cC lc).closed = lc.reverse := by
  refine ⟨?_, ?_, ?_⟩
  · rw [test_server.finalize,
      drainFrom_all_ok cS ls.reverse fun x hx => hS x (List.mem_reverse.mp hx)]
  · rw [raw_test_server.finalize,
      drainFrom_all_ok cR lr.reverse fun x hx => hR x (List.mem_reverse.mp hx)]
  · rw [test_client.finalize,
      drainFrom_all_ok cC lc.reverse fun x hx => hC x (List.mem_reverse.mp hx)]

/-- C3 witness: creating A, B, C (applications on loops 0, 1, 2) and then
draining closes C, then B, then A. -/
theorem teardown_closes_in_reverse_creation_order_witness :
    (test_server.finalize (fun _ => true) [⟨⟨0⟩⟩, ⟨⟨1⟩⟩, ⟨⟨2⟩⟩]).closed =
      [⟨⟨2⟩⟩, ⟨⟨1⟩⟩, ⟨⟨0⟩⟩] :=
  (teardown_closes_in_reverse_creation_order (fun _ => true) (fun _ => true)
    (fun _ => true) [⟨⟨0⟩⟩, ⟨⟨1⟩⟩, ⟨⟨2⟩⟩] [] [] (by decide) (by decide)
    (by decide)).1

/-- C4: N successful factory calls within one test leave exactly N registry
entries (for both the `test_server` and `test_client` fixtures), and a
teardown drain that completes (no close raised) leaves exactly 0. -/
theorem registry_counts_n_then_zero :
    (∀ (loop : Loop) (calls : List (Bool × App)) (regs : List TestServer),
        test_server.run loop calls [] = .ok regs →
        regs.length = calls.length) ∧
    (∀ (loop : Loop) (calls : List ClientCall) (regs : List TestClient),
        test_client.run loop calls [] = .ok regs →
        regs.length = calls.length) ∧
    (∀ (closeOk : TestServer → Bool) (l : List TestServer),
        (test_server.finalize closeOk l).failed = none →
        (test_server.finalize closeOk l).remaining = []) ∧
    (∀ (closeOk : TestClient → Bool) (l : List TestClient),
        (test_client.finalize closeOk l).failed = none →
        (test_client.finalize closeOk l).remaining = []) := by
  refine ⟨?_, ?_, ?_, ?_⟩
  · intro loop calls regs h
    simpa using test_server.run_length_servers loop calls [] regs h
  · intro loop calls regs h
    simpa using test_client.run_length_clients loop calls [] regs h
  · intro closeOk l h
    exact drainFrom_failed_none closeOk l.reverse h
  · intro closeOk l h
    exact drainFrom_failed_none closeOk l.reverse h

/-- C4 witness: two successful `test_server` calls leave two entries, and a
completed drain of a one-entry registry leaves it empty. -/
theorem registry_counts_n_then_zero_witness :
    ([⟨⟨0⟩⟩, ⟨⟨0⟩⟩] : List TestServer).length = 2 ∧
    (test_server.finalize (fun _ => true) [⟨⟨0⟩⟩]).remaining = [] :=
  ⟨registry_counts_n_then_zero.1 0 [(true, ⟨0⟩), (true, ⟨0⟩)] [⟨⟨0⟩⟩, ⟨⟨0⟩⟩]
      (by decide),
    registry_counts_n_then_zero.2.2.1 (fun _ => true) [⟨⟨0⟩⟩] (by decide)⟩

/-- C10: the drain pops each resource before awaiting its close, so every
registry position is popped and close-awaited at most once: the registry in
creation order always decomposes as the entries still registered followed by
the close attempts (successful closes plus the one failed close, if any) in
reverse attempt order; and when the close of `x` raises while all
later-created resources closed fine, the registry at that moment holds
exactly the resources created strictly earlier than `x` (shown for the
`raw_test_server` and `test_client` drains; the `test_server` drain is the
same `drainFrom` loop). -/
theorem drain_pops_before_close_and_attempts_each_once :
    (∀ (closeOk : TestServer → Bool) (l : List TestServer),
        l = (test_server.finalize closeOk l).remaining ++
            ((test_server.finalize closeOk l).closed ++
              (test_server.finalize closeOk l).failed.toList).reverse) ∧
    (∀ (closeOk : RawTestServer → Bool) (pre : List RawTestServer)
        (x : RawTestServer) (post : List RawTestServer),
        (∀ y ∈ post, closeOk y = true) → closeOk x = false →
        raw_test_server.finalize closeOk (pre ++ x :: post) =
          ⟨post.reverse, some x, pre⟩) ∧
    (∀ (closeOk : TestClient → Bool) (pre : List TestClient) (x : TestClient)
        (post : List TestClient),
        (∀ y ∈ post, closeOk y = true) → closeOk x = false →
        test_client.finalize closeOk (pre ++ x :: post) =
          ⟨post.reverse, some x, pre⟩) := by
  refine ⟨?_, ?_, ?_⟩
  · intro closeOk l
    exact drain_rev_decomp closeOk l
  · intro closeOk pre x post hpost hx
    rw [raw_test_server.finalize, drain_rev_fail closeOk pre x post hpost hx]
  · intro closeOk pre x post hpost hx
    rw [test_client.finalize, drain_rev_fail closeOk pre x post hpost hx]

/-- C10 witness: in a three-entry raw-server registry whose middle entry's
close raises, the drain closes the last entry, fails on the middle one
(already popped), and leaves exactly the first entry registered. -/
theorem drain_pops_before_close_and_attempts_each_once_witness :
    raw_test_server.finalize (fun r => r.handler.id != 1)
        [⟨⟨0, 0⟩, 0⟩, ⟨⟨1, 0⟩, 0⟩, ⟨⟨2, 0⟩, 0⟩] =
      ⟨[⟨⟨2, 0⟩, 0⟩], some ⟨⟨1, 0⟩, 0⟩, [⟨⟨0, 0⟩, 0⟩]⟩ :=
  drain_pops_before_close_and_attempts_each_once.2.1
    (fun r => r.handler.id != 1) [⟨⟨0, 0⟩, 0⟩] ⟨⟨1, 0⟩, 0⟩ [⟨⟨2, 0⟩, 0⟩]
    (by decide) (by decide)

/-- C1 counterexample: registry `[s0, s1]` in creation order; the close of
`s1` (popped first) raises, and the drain then stops: `s0` is never closed
(`closed = []`) and is still in the registry, refuting the claim that a
single close failure does not prevent the remaining resources from being
closed. -/
theorem close_failure_skips_earlier_resources_cex :
    (test_server.finalize (fun s => s.app.loop == 0) [⟨⟨0⟩⟩, ⟨⟨1⟩⟩]).failed =
        some ⟨⟨1⟩⟩ ∧
    (test_server.finalize (fun s => s.app.loop == 0) [⟨⟨0⟩⟩, ⟨⟨1⟩⟩]).closed =
        [] ∧
    (test_server.finalize (fun s => s.app.loop == 0)
        [⟨⟨0⟩⟩, ⟨⟨1⟩⟩]).remaining = [⟨⟨0⟩⟩] := by
  decide

/-- C1 (amended): a close failure is not masked — the raised error is the
drain's reported failure — but the drain stops at the first failing close:
only later-created resources were closed, and every resource created
strictly earlier than the failing one stays in the registry unclosed (shown
for the `test_server` and `test_client` drains). -/
theorem drain_stops_at_first_close_failure :
    (∀ (closeOk : TestServer → Bool) (pre : List TestServer) (x : TestServer)
        (post : List TestServer),
        (∀ y ∈ post, closeOk y = true) → closeOk x = false →
        (test_server.finalize closeOk (pre ++ x :: post)).failed = some x ∧
        (test_server.finalize closeOk (pre ++ x :: post)).closed =
          post.reverse ∧
        (test_server.finalize closeOk (pre ++ x :: post)).remaining = pre) ∧
    (∀ (closeOk : TestClient → Bool) (pre : List TestClient) (x : TestClient)
        (post : List TestClient),
        (∀ y ∈ post, closeOk y = true) → closeOk x = false →
        (test_client.finalize closeOk (pre ++ x :: post)).failed = some x ∧
        (test_client.finalize closeOk (pre ++ x :: post)).closed =
          post.reverse ∧
        (test_client.finalize closeOk (pre ++ x :: post)).remaining = pre) := by
  constructor
  · intro closeOk pre x post hpost hx
    rw [test_server.finalize, drain_rev_fail closeOk pre x post hpost hx]
    exact ⟨rfl, rfl, rfl⟩
  · intro closeOk pre x post hpost hx
    rw [test_client.finalize, drain_rev_fail closeOk pre x post hpost hx]
    exact ⟨rfl, rfl, rfl⟩

/-- C1 (amended) witness: servers on loops 0, 1, 2 created in that order;
the close of the middle one raises, the drain reports it, has closed only
the last-created one, and leaves the first-created one registered. -/
theorem drain_stops_at_first_close_failure_witness :
    (test_server.finalize (fun s => s.app.loop != 1)
        [⟨⟨0⟩⟩, ⟨⟨1⟩⟩, ⟨⟨2⟩⟩]).failed = some ⟨⟨1⟩⟩ ∧
    (test_server.finalize (fun s => s.app.loop != 1)
        [⟨⟨0⟩⟩, ⟨⟨1⟩⟩, ⟨⟨2⟩⟩]).closed = [⟨⟨2⟩⟩] ∧
    (test_server.finalize (fun s => s.app.loop != 1)
        [⟨⟨0⟩⟩, ⟨⟨1⟩⟩, ⟨⟨2⟩⟩]).remaining = [⟨⟨0⟩⟩] :=
  drain_stops_at_first_close_failure.1 (fun s => s.app.loop != 1) [⟨⟨0⟩⟩]
    ⟨⟨1⟩⟩ [⟨⟨2⟩⟩] (by decide) (by decide)

/-- C2 counterexample: the raw-handler variant performs no binding check.
With the fixture's active loop 0 and a handler notionally bound to loop 1,
the factory call succeeds (no assertion error is raised) and registers a
server, refuting the claim that both variants fail immediately on a
binding mismatch. -/
theorem raw_test_server_no_binding_assertion_cex :
    (raw_test_server.go 0 true ⟨7, 1⟩ []).result = .ok ⟨⟨7, 1⟩, 0⟩ ∧
    (raw_test_server.go 0 true ⟨7, 1⟩ []).servers = [⟨⟨7, 1⟩, 0⟩] := by
  decide

/-- C2 (amended): only the application-level variant checks the binding — a
`test_server` factory call with an application attached to another loop
fails with the descriptive assertion error before any start is attempted and
leaves the registry unchanged; the raw-handler variant never raises an
assertion error at all, and instead every server it returns is bound to the
fixture's active loop. -/
theorem binding_assertion_only_in_test_server :
    (∀ (loop : Loop) (startOk : Bool) (app : App)
        (servers : List TestServer),
        app.loop ≠ loop →
        test_server.go loop startOk app servers =
          ⟨.error
              (.assertionError "Application is attached to other event loop"),
            servers, []⟩) ∧
    (∀ (loop : Loop) (startOk : Bool) (handler : Handler)
        (servers : List RawTestServer) (msg : String),
        (raw_test_server.go loop startOk handler servers).result ≠
          .error (.assertionError msg)) ∧
    (∀ (loop : Loop) (startOk : Bool) (handler : Handler)
        (servers : List RawTestServer) (s : RawTestServer),
        (raw_test_server.go loop startOk handler servers).result = .ok s →
        s._loop = loop) := by
  refine ⟨?_, ?_, ?_⟩
  · intro loop startOk app servers h
    simp [test_server.go, h]
  · intro loop startOk handler servers msg
    by_cases hs : startOk = true
    · simp [raw_test_server.go, hs]
    · simp [raw_test_server.go, hs]
  · intro loop startOk handler servers s h
    by_cases hs : startOk = true
    · simp [raw_test_server.go, hs] at h
      rw [← h]
    · simp [raw_test_server.go, hs] at h

/-- C2 (amended) witness: an application attached to loop 1 under active
loop 0 is rejected with the assertion message and nothing is registered,
while a raw server started under active loop 0 is bound to loop 0. -/
theorem binding_assertion_only_in_test_server_witness :
    test_server.go 0 true ⟨1⟩ [] =
      ⟨.error (.assertionError "Application is attached to other event loop"),
        [], []⟩ ∧
    (⟨⟨7, 1⟩, 0⟩ : RawTestServer)._loop = 0 :=
  ⟨binding_assertion_only_in_test_server.1 0 true ⟨1⟩ [] (by decide),
    binding_assertion_only_in_test_server.2.2 0 true ⟨7, 1⟩ [] ⟨⟨7, 1⟩, 0⟩
      (by decide)⟩

/-- C5: a factory call appends exactly one entry to the registry if and only
if the awaited `start_server` succeeds; on any failure (assertion or start
error) the exception propagates and the registry is left unmodified, with no
partial entry (shown for `test_server.go` and `test_client.go`).  "The start
succeeds" is expressed as: `start_server` was awaited (`startAttempts ≠ []`)
and did not raise (`startOk = true`). -/
theorem factory_appends_one_iff_start_succeeds :
    (∀ (loop : Loop) (startOk : Bool) (app : App)
        (servers : List TestServer),
        ((∃ s, (test_server.go loop startOk app servers).result = .ok s ∧
            (test_server.go loop startOk app servers).servers =
              servers ++ [s]) ∨
          ((∃ e, (test_server.go loop startOk app servers).result =
              .error e) ∧
            (test_server.go loop startOk app servers).servers = servers)) ∧
        ((∃ s, (test_server.go loop startOk app servers).result = .ok s) ↔
          ((test_server.go loop startOk app servers).startAttempts ≠ [] ∧
            startOk = true)) ∧
        ((test_server.go loop startOk app servers).startAttempts ≠ [] →
          startOk = false →
          (test_server.go loop startOk app servers).result =
            .error .startError ∧
          (test_server.go loop startOk app servers).servers = servers)) ∧
    (∀ (loop : Loop) (startOk : Bool) (param : ClientParam) (args : List Nat)
        (kwargs : List (String × Nat)) (clients : List TestClient),
        ((∃ c, (test_client.go loop startOk param args kwargs clients).result =
              .ok c ∧
            (test_client.go loop startOk param args kwargs clients).clients =
              clients ++ [c]) ∨
          ((∃ e, (test_client.go loop startOk param args kwargs
                clients).result = .error e) ∧
            (test_client.go loop startOk param args kwargs clients).clients =
              clients)) ∧
        ((∃ c, (test_client.go loop startOk param args kwargs clients).result =
            .ok c) ↔
          ((test_client.go loop startOk param args kwargs
              clients).startAttempts ≠ [] ∧ startOk = true)) ∧
        ((test_client.go loop startOk param args kwargs
            clients).startAttempts ≠ [] → startOk = false →
          (test_client.go loop startOk param args kwargs clients).result =
            .error .startError ∧
          (test_client.go loop startOk param args kwargs clients).clients =
            clients)) := by
  constructor
  · intro loop startOk app servers
    by_cases ha : app.loop = loop <;> by_cases hs : startOk = true <;>
      simp [test_server.go, ha, hs]
  · intro loop startOk param args kwargs clients
    cases param with
    | app a =>
      by_cases hargs : args = [] <;> by_cases hl : a.loop = loop <;>
        by_cases hs : startOk = true <;>
        simp [test_client.go, startClient, hargs, hl, hs]
    | server s =>
      by_cases hargs : args = [] <;> by_cases hl : s.app.loop = loop <;>
        by_cases hs : startOk = true <;>
        simp [test_client.go, startClient, hargs, hl, hs]
    | rawServer r =>
      by_cases hargs : args = [] <;> by_cases hl : r._loop = loop <;>
        by_cases hs : startOk = true <;>
        simp [test_client.go, startClient, hargs, hl, hs]
    | callable f =>
      by_cases hs : startOk = true <;>
        simp [test_client.go, startClient, hs]

/-- C5 witness: a `test_server` call whose `start_server` raises propagates
the start error and leaves the (empty) registry unmodified. -/
theorem factory_appends_one_iff_start_succeeds_witness :
    (test_server.go 0 false ⟨0⟩ []).result = .error .startError ∧
    (test_server.go 0 false ⟨0⟩ []).servers = [] :=
  (factory_appends_one_iff_start_succeeds.1 0 false ⟨0⟩ []).2.2 (by decide)
    rfl

/-- C6: when a pre-existing loop is supplied (truthy `loop`), the
passthrough context yields that exact instance, did not create a new loop,
and performs no teardown on it; and whenever the context does run teardown,
the loop it tears down is one it created itself (no supplied loop was
present). -/
theorem passthrough_yields_same_loop_no_teardown :
    (∀ (l fresh : Loop),
        _passthrough_loop_context (some l) fresh = ⟨l, false, false⟩) ∧
    (∀ (lo : Option Loop) (fresh : Loop),
        (_passthrough_loop_context lo fresh).tornDown = true →
        (_passthrough_loop_context lo fresh).createdNew = true ∧
          lo = none) := by
  constructor
  · intro l fresh
    rfl
  · intro lo fresh h
    cases lo with
    | some l => simp [_passthrough_loop_context] at h
    | none => exact ⟨rfl, rfl⟩

/-- C6 witness: the supplied loop 5 is yielded back untouched with no
teardown, and the created-loop branch only tears down its own fresh
loop. -/
theorem passthrough_yields_same_loop_no_teardown_witness :
    _passthrough_loop_context (some 5) 9 = ⟨5, false, false⟩ ∧
    (_passthrough_loop_context none 9).createdNew = true :=
  ⟨passthrough_yields_same_loop_no_teardown.1 5 9,
    (passthrough_yields_same_loop_no_teardown.2 none 9 (by decide)).1⟩

/-- C7: with a bare-callable target (form 4), `test_client.go` invokes the
callable exactly once, with the active loop as first argument followed by
the supplied positional and keyword arguments, and — when the client's
start succeeds — wraps the callable's result in a client, registers it and
returns it. -/
theorem client_factory_callable_invoked_once_with_loop (loop : Loop)
    (startOk : Bool) (f : Loop → List Nat → List (String × Nat) → Nat)
    (args : List Nat) (kwargs : List (String × Nat))
    (clients : List TestClient) :
    (test_client.go loop startOk (.callable f) args kwargs clients).paramCalls
        = [(loop, args, kwargs)] ∧
    test_client.go loop true (.callable f) args kwargs clients =
      ⟨.ok ⟨.other (f loop args kwargs), []⟩,
        clients ++ [⟨.other (f loop args kwargs), []⟩],
        [(loop, args, kwargs)],
        [⟨.other (f loop args kwargs), []⟩]⟩ := by
  constructor
  · by_cases hs : startOk = true <;> simp [test_client.go, startClient, hs]
  · simp [test_client.go, startClient]

/-- C9: calling the client factory with a pre-built target (Application,
TestServer or RawTestServer) together with one or more positional arguments
fails with the assertion error before any client is constructed or started:
the registry is unchanged, the callable-invocation log is empty (nothing was
forwarded) and no `start_server` was awaited. -/
theorem client_factory_rejects_args_with_prebuilt_target (loop : Loop)
    (startOk : Bool) (args : List Nat) (kwargs : List (String × Nat))
    (clients : List TestClient) (h : args ≠ []) :
    (∀ a : App, test_client.go loop startOk (.app a) args kwargs clients =
      ⟨.error (.assertionError "args should be empty"), clients, [], []⟩) ∧
    (∀ s : TestServer,
      test_client.go loop startOk (.server s) args kwargs clients =
        ⟨.error (.assertionError "args should be empty"), clients, [], []⟩) ∧
    (∀ r : RawTestServer,
      test_client.go loop startOk (.rawServer r) args kwargs clients =
        ⟨.error (.assertionError "args should be empty"), clients, [], []⟩) := by
  refine ⟨?_, ?_, ?_⟩ <;> intro t <;> simp [test_client.go, h]

/-- C9 witness: an application target together with positional argument `1`
is rejected with the assertion error and nothing is registered, forwarded
or started. -/
theorem client_factory_rejects_args_with_prebuilt_target_witness :
    test_client.go 0 true (.app ⟨0⟩) [1] [] [] =
      ⟨.error (.assertionError "args should be empty"), [], [], []⟩ :=
  (client_factory_rejects_args_with_prebuilt_target 0 true [1] [] []
    (by decide)).1 ⟨0⟩

/-- C8: for a coroutine test function the hook drives the coroutine to
completion on the loop obtained from the passthrough context (the supplied
`loop` fixture value, or a fresh loop) and returns `True` (`handled`); an
exception raised by the coroutine propagates as the test's failure
(`raised`); for a non-coroutine function the hook returns `None`
(`notHandled`), which is distinguishable from `handled`. -/
theorem pyfunc_call_runs_coroutines_and_declines_others (item : PyFuncItem)
    (fresh : Loop) :
    (item.isCoroutine = true →
      (∀ u : Unit,
        item.run
            (_passthrough_loop_context (item.funcargs.lookup "loop")
              fresh).yielded (testargsFor item) = .ok u →
        pytest_pyfunc_call item fresh =
          .handled
            (_passthrough_loop_context (item.funcargs.lookup "loop")
              fresh).yielded) ∧
      (∀ e : String,
        item.run
            (_passthrough_loop_context (item.funcargs.lookup "loop")
              fresh).yielded (testargsFor item) = .error e →
        pytest_pyfunc_call item fresh =
          .raised
            (_passthrough_loop_context (item.funcargs.lookup "loop")
              fresh).yielded e)) ∧
    (item.isCoroutine = false → pytest_pyfunc_call item fresh = .notHandled) ∧
    (∀ l : Loop, HookResult.notHandled ≠ HookResult.handled l) := by
  refine ⟨fun hc => ⟨?_, ?_⟩, ?_, ?_⟩
  · intro u h
    simp [pytest_pyfunc_call, hc, h]
  · intro e h
    simp [pytest_pyfunc_call, hc, h]
  · intro hc
    simp [pytest_pyfunc_call, hc]
  · intro l hne
    exact HookResult.noConfusion hne

/-- C8 witness: a coroutine item with no fixtures runs to completion on the
fresh loop 3 and the hook reports it handled. -/
theorem pyfunc_call_runs_coroutines_and_declines_others_witness :
    pytest_pyfunc_call ⟨true, [], [], fun _ _ => .ok ()⟩ 3 = .handled 3 :=
  ((pyfunc_call_runs_coroutines_and_declines_others
    ⟨true, [], [], fun _ _ => .ok ()⟩ 3).1 rfl).1 () rfl
